import Mathlib

/-!
Verification of the real-time session coordination layer of the
video-call-platform repository.  Definitions are shallow embeddings of the
TypeScript source: `SessionService` / `ChatMessageService` (database-backed
services, modelled as pure state-passing functions over lists of documents),
the `SocketHandler` event handlers, and the `LiveKitController` recording
endpoints.  MongoDB update operators are modelled directly:
`$addToSet` appends iff absent, `$pull` filters out matches,
`findByIdAndUpdate` maps over the stored documents.
-/

namespace VideoCall

/-! ## Data model (interfaces/sessions.interface.ts, models) -/

/-- Session lifecycle status, `'scheduled' | 'active' | 'ended'`. -/
inductive SessionStatus
  | scheduled
  | active
  | ended
deriving DecidableEq, Repr

/-- A session document (the fields the coordination layer reads/writes). -/
structure Session where
  id : String
  educator_id : String
  session_code : String
  participants : List String
  status : SessionStatus
deriving DecidableEq, Repr

/-- `HttpException(status, message)` thrown by the services. -/
structure HttpException where
  status : Nat
  message : String
deriving DecidableEq, Repr

/-- User role, `'educator' | 'child'`. -/
inductive Role
  | educator
  | child
deriving DecidableEq, Repr

/-- A user document (the fields the services read). -/
structure User where
  id : String
  role : Role
deriving DecidableEq, Repr

/-! ## MongoDB primitives as used by the services -/

/-- `SessionModel.findById(sid)` over the stored session documents. -/
def findById (db : List Session) (sid : String) : Option Session :=
  db.find? (fun s => s.id == sid)

/-- `SessionModel.findByIdAndUpdate(sid, update)`: apply the update to the
documents whose `_id` matches. -/
def updateById (db : List Session) (sid : String) (f : Session → Session) :
    List Session :=
  db.map (fun s => if s.id == sid then f s else s)

/-- Mongo `$addToSet`: append the value iff it is not already present. -/
def addToSet (l : List String) (x : String) : List String :=
  if x ∈ l then l else l ++ [x]

/-- Mongo `$pull`: remove every occurrence of the value. -/
def pull (l : List String) (x : String) : List String :=
  l.filter (fun y => y != x)

/-- `UserModel.findById(uid)`. -/
def findUserById (users : List User) (uid : String) : Option User :=
  users.find? (fun u => u.id == uid)

/-! ## SessionService (services/sessions.service.ts) -/

namespace SessionService

/-- `SessionService.findSessionById`: 400 on empty id, 409 when the id does
not resolve, otherwise the session. -/
def findSessionById (db : List Session) (sessionId : String) :
    Except HttpException Session :=
  if sessionId = "" then .error ⟨400, "Session ID is empty"⟩
  else
    match findById db sessionId with
    | none => .error ⟨409, "Session not found"⟩
    | some s => .ok s

/-- `SessionService.findSessionByCode`: 400 on empty code, 409 when no
session carries the code. -/
def findSessionByCode (db : List Session) (sessionCode : String) :
    Except HttpException Session :=
  if sessionCode = "" then .error ⟨400, "Session code is empty"⟩
  else
    match db.find? (fun s => s.session_code == sessionCode) with
    | none => .error ⟨409, "Session not found"⟩
    | some s => .ok s

/-- `SessionService.updateSessionStatus`: empty-id check, then
`findByIdAndUpdate(sessionId, { status }, { new: true })` — the requested
status is written unconditionally; there is no transition validation.
Returns the updated database together with the updated document. -/
def updateSessionStatus (db : List Session) (sessionId : String)
    (status : SessionStatus) :
    Except HttpException (List Session × Session) :=
  if sessionId = "" then .error ⟨400, "Session ID is empty"⟩
  else
    match findById db sessionId with
    | none => .error ⟨409, "Session not found"⟩
    | some s =>
        .ok (updateById db sessionId (fun t => { t with status := status }),
             { s with status := status })

/-- `SessionService.addParticipant`:
`findByIdAndUpdate(sessionId, { $addToSet: { participants: participantId } })`. -/
def addParticipant (db : List Session) (sessionId participantId : String) :
    List Session :=
  updateById db sessionId
    (fun s => { s with participants := addToSet s.participants participantId })

/-- `SessionService.removeParticipant`:
`findByIdAndUpdate(sessionId, { $pull: { participants: participantId } })`. -/
def removeParticipant (db : List Session) (sessionId participantId : String) :
    List Session :=
  updateById db sessionId
    (fun s => { s with participants := pull s.participants participantId })

/-- `SessionService.joinSession`: verify the user exists (409), resolve the
session by join code, reject ended sessions (400 "Session has ended"),
return unchanged when the user is already a participant, otherwise
`$addToSet` the participant.  Returns the updated database and session. -/
def joinSession (users : List User) (db : List Session)
    (participantId : String) (session_code : String) :
    Except HttpException (List Session × Session) :=
  match findUserById users participantId with
  | none => .error ⟨409, "User not found"⟩
  | some _ =>
      match findSessionByCode db session_code with
      | .error e => .error e
      | .ok s =>
          if s.status = SessionStatus.ended then
            .error ⟨400, "Session has ended"⟩
          else if participantId ∈ s.participants then
            .ok (db, s)
          else
            .ok (updateById db s.id
                   (fun t =>
                     { t with participants := addToSet t.participants participantId }),
                 { s with participants := addToSet s.participants participantId })

end SessionService

/-! ## Helper lemmas on the Mongo primitives -/

theorem findById_updateById (db : List Session) (sid : String)
    (f : Session → Session) (hf : ∀ t, (f t).id = t.id) :
    findById (updateById db sid f) sid = (findById db sid).map f := by
  induction db with
  | nil => rfl
  | cons a l ih =>
      simp only [findById, updateById, List.map_cons, List.find?] at *
      by_cases h : a.id = sid
      · simp [h, hf]
      · have hb : (a.id == sid) = false := by
          simpa using h
        simp only [hb, if_false]
        simpa [findById, updateById, hb] using ih

theorem mem_addToSet_self (l : List String) (x : String) : x ∈ addToSet l x := by
  unfold addToSet
  by_cases h : x ∈ l <;> simp [h]

theorem count_addToSet_self (l : List String) (x : String) :
    (addToSet l x).count x = if x ∈ l then l.count x else l.count x + 1 := by
  unfold addToSet
  by_cases h : x ∈ l <;> simp [h, List.count_append]

theorem count_pos_of_mem {l : List String} {x : String} (h : x ∈ l) :
    0 < l.count x :=
  List.count_pos_iff.mpr h

theorem pull_of_not_mem (l : List String) (x : String) (h : x ∉ l) :
    pull l x = l := by
  unfold pull
  apply List.filter_eq_self.mpr
  intro a ha
  have : a ≠ x := fun he => h (he ▸ ha)
  simpa using this

theorem pull_addToSet_of_not_mem (l : List String) (x : String) (h : x ∉ l) :
    pull (addToSet l x) x = l := by
  unfold addToSet
  simp only [h, if_false]
  unfold pull
  rw [List.filter_append]
  have h1 : List.filter (fun y => y != x) l = l := pull_of_not_mem l x h
  have h2 : List.filter (fun y => y != x) [x] = [] := by simp
  rw [h1, h2, List.append_nil]

theorem updateById_updateById (db : List Session) (sid : String)
    (f g : Session → Session) (hf : ∀ t, (f t).id = t.id) :
    updateById (updateById db sid f) sid g
      = updateById db sid (fun t => g (f t)) := by
  unfold updateById
  rw [List.map_map]
  apply List.map_congr_left
  intro a _
  by_cases h : a.id = sid
  · simp [Function.comp, h, hf]
  · simp [Function.comp, h]

theorem findById_updateById_twice (db : List Session) (sid : String)
    (f g : Session → Session) (hf : ∀ t, (f t).id = t.id)
    (hg : ∀ t, (g t).id = t.id) :
    findById (updateById (updateById db sid f) sid g) sid
      = (findById db sid).map (fun t => g (f t)) := by
  rw [findById_updateById (updateById db sid f) sid g hg,
      findById_updateById db sid f hf, Option.map_map]
  rfl

/-! ## Concrete sample documents used by counterexamples -/

/-- An ended session, as stored in the database. -/
def endedSession : Session :=
  { id := "s1", educator_id := "e1", session_code := "ABCD1234",
    participants := [], status := SessionStatus.ended }

/-- An active session whose participant set already contains `"u1"`. -/
def sessionWithU1 : Session :=
  { id := "s1", educator_id := "e1", session_code := "ABCD1234",
    participants := ["u1"], status := SessionStatus.active }

/-! ## C1 — status updates on an ended session -/

/-- C1 counterexample: on the stored session with status `ended`, a
status-update request to `active` does not fail with any error — it succeeds
and the stored status becomes `active`, so the claim "a transition request
from `ended` fails with InvalidTransition and the status remains `ended`"
is false on this input. -/
theorem updateSessionStatus_ended_counterexample :
    SessionService.updateSessionStatus [endedSession] "s1" SessionStatus.active
      = .ok ([{ endedSession with status := SessionStatus.active }],
             { endedSession with status := SessionStatus.active })
    ∧ SessionStatus.active ≠ SessionStatus.ended := by
  constructor
  · rfl
  · decide

/-- C1 (amended): `updateSessionStatus` performs no transition validation:
for any stored session — in particular one whose status is `ended` — a
status-update request to any target status succeeds and the stored status
becomes the requested one. -/
theorem updateSessionStatus_writes_unconditionally (db : List Session)
    (sid : String) (st : SessionStatus) (s : Session)
    (h0 : sid ≠ "") (h : findById db sid = some s) :
    ∃ db' s', SessionService.updateSessionStatus db sid st = .ok (db', s')
      ∧ s'.status = st
      ∧ findById db' sid = some { s with status := st } := by
  refine ⟨updateById db sid (fun t => { t with status := st }),
          { s with status := st }, ?_, rfl, ?_⟩
  · unfold SessionService.updateSessionStatus
    simp [h0, h]
  · rw [findById_updateById db sid (fun t => { t with status := st })
          (fun t => rfl), h]
    rfl

/-- Witness for C1 (amended) at a concrete ended session. -/
theorem updateSessionStatus_writes_unconditionally_witness :
    ∃ db' s',
      SessionService.updateSessionStatus [endedSession] "s1" SessionStatus.active
        = .ok (db', s')
      ∧ s'.status = SessionStatus.active
      ∧ findById db' "s1" = some { endedSession with status := SessionStatus.active } :=
  updateSessionStatus_writes_unconditionally [endedSession] "s1"
    SessionStatus.active endedSession (by decide) (by rfl)

/-! ## C5 — joining twice adds the identity exactly once -/

/-- C5: two consecutive `addParticipant` calls (the `$addToSet` write shared
by the socket join path and `joinSession`) leave the identity in the
session's participant set exactly once, provided the set held it at most
once before (the invariant maintained by `$addToSet`); the second call is a
no-op rather than an error. -/
theorem addParticipant_twice_count_one (db : List Session) (sid pid : String)
    (s : Session) (h : findById db sid = some s)
    (hc : s.participants.count pid ≤ 1) :
    ∃ s', findById (SessionService.addParticipant
            (SessionService.addParticipant db sid pid) sid pid) sid = some s'
      ∧ s'.participants.count pid = 1 := by
  unfold SessionService.addParticipant
  rw [findById_updateById_twice db sid
        (fun s => { s with participants := addToSet s.participants pid })
        (fun s => { s with participants := addToSet s.participants pid })
        (fun t => rfl) (fun t => rfl), h]
  refine ⟨_, rfl, ?_⟩
  show List.count pid (addToSet (addToSet s.participants pid) pid) = 1
  rw [count_addToSet_self]
  have hmem : pid ∈ addToSet s.participants pid := mem_addToSet_self _ _
  simp only [hmem, if_true]
  rw [count_addToSet_self]
  by_cases hp : pid ∈ s.participants
  · have h1 : 0 < s.participants.count pid := count_pos_of_mem hp
    have h2 : s.participants.count pid = 1 := le_antisymm hc h1
    simp [hp, h2]
  · have h0 : s.participants.count pid = 0 := List.count_eq_zero.mpr hp
    simp [hp, h0]

/-- Witness for C5 at a concrete session whose set already holds `"u1"`. -/
theorem addParticipant_twice_count_one_witness :
    ∃ s', findById (SessionService.addParticipant
            (SessionService.addParticipant [sessionWithU1] "s1" "u1") "s1" "u1") "s1"
            = some s'
      ∧ s'.participants.count "u1" = 1 :=
  addParticipant_twice_count_one [sessionWithU1] "s1" "u1" sessionWithU1
    (by rfl) (by decide)

/-! ## C6 — join followed by leave -/

/-- C6 counterexample: on a session whose participant set already contains
`"u1"`, `addParticipant` is a no-op and the subsequent `removeParticipant`
(`$pull`) deletes the pre-existing membership, so the participant set after
join-then-leave (`[]`) differs from its state before the join (`["u1"]`). -/
theorem join_then_leave_counterexample :
    SessionService.removeParticipant
        (SessionService.addParticipant [sessionWithU1] "s1" "u1") "s1" "u1"
      = [{ sessionWithU1 with participants := [] }]
    ∧ ([] : List String) ≠ sessionWithU1.participants := by
  constructor
  · rfl
  · decide

/-- C6 (amended): when the identity is not already in the session's
participant set, `addParticipant` followed by `removeParticipant` restores
the database exactly; when it was already a participant, the leave removes
the pre-existing membership (see the counterexample). -/
theorem join_then_leave_restores (db : List Session) (sid pid : String)
    (h : ∀ s ∈ db, s.id = sid → pid ∉ s.participants) :
    SessionService.removeParticipant
        (SessionService.addParticipant db sid pid) sid pid = db := by
  unfold SessionService.removeParticipant SessionService.addParticipant
  rw [updateById_updateById db sid
        (fun s => { s with participants := addToSet s.participants pid })
        (fun s => { s with participants := pull s.participants pid })
        (fun t => rfl)]
  unfold updateById
  conv_rhs => rw [← List.map_id db]
  apply List.map_congr_left
  intro a ha
  by_cases hid : a.id = sid
  · have hp : pid ∉ a.participants := h a ha hid
    have hr : pull (addToSet a.participants pid) pid = a.participants :=
      pull_addToSet_of_not_mem _ _ hp
    have hb : (a.id == sid) = true := by simpa using hid
    simp only [hb, if_true, id]
    show ({ a with participants := pull (addToSet a.participants pid) pid }
           : Session) = a
    rw [hr]
  · simp [hid]

/-- Witness for C6 (amended): joining then leaving with a fresh identity
restores the concrete database. -/
theorem join_then_leave_restores_witness :
    SessionService.removeParticipant
        (SessionService.addParticipant [sessionWithU1] "s1" "u2") "s1" "u2"
      = [sessionWithU1] :=
  join_then_leave_restores [sessionWithU1] "s1" "u2" (by decide)

/-! ## Chat data model (models/chatMessages.model.ts, socket.interface.ts) -/

/-- Message kind, `'text' | 'system'`. -/
inductive MsgType
  | text
  | system
deriving DecidableEq, Repr

/-- A chat message document; `timestamp` is the server-assigned creation
time (modelled as a Nat tick). -/
structure ChatMessage where
  sessionId : String
  userId : String
  userName : String
  message : String
  timestamp : Nat
  type : MsgType
deriving DecidableEq, Repr

/-! ## ChatMessageService (services/chatMessages.service.ts) -/

namespace ChatMessageService

/-- `ChatMessageModel.create({...messageData, timestamp: new Date()})`:
append the message with the server-assigned timestamp; returns the new
store and the saved document. -/
def createChatMessage (db : List ChatMessage) (now : Nat)
    (sessionId userId userName message : String) (type : MsgType) :
    List ChatMessage × ChatMessage :=
  let m : ChatMessage :=
    { sessionId := sessionId, userId := userId, userName := userName,
      message := message, timestamp := now, type := type }
  (db ++ [m], m)

/-- Insertion step of `.sort({ timestamp: -1 })` (descending timestamps). -/
def insertDesc (m : ChatMessage) : List ChatMessage → List ChatMessage
  | [] => [m]
  | x :: xs => if m.timestamp ≤ x.timestamp then x :: insertDesc m xs
               else m :: x :: xs

/-- `.sort({ timestamp: -1 })`: sort by timestamp, newest first. -/
def sortByTimestampDesc : List ChatMessage → List ChatMessage
  | [] => []
  | x :: xs => insertDesc x (sortByTimestampDesc xs)

/-- `ChatMessageService.getRecentChatMessages`:
`find({ sessionId }).sort({ timestamp: -1 }).limit(limit)` followed by
`.reverse()` to obtain chronological order. -/
def getRecentChatMessages (db : List ChatMessage) (sessionId : String)
    (limit : Nat) : List ChatMessage :=
  ((sortByTimestampDesc (db.filter (fun m => m.sessionId == sessionId))).take
      limit).reverse

theorem insertDesc_perm (m : ChatMessage) (l : List ChatMessage) :
    List.Perm (insertDesc m l) (m :: l) := by
  induction l with
  | nil => exact List.Perm.refl _
  | cons x xs ih =>
      unfold insertDesc
      by_cases h : m.timestamp ≤ x.timestamp
      · simp only [h, if_true]
        exact (ih.cons x).trans (List.Perm.swap m x xs)
      · simp only [h, if_false]
        exact List.Perm.refl _

theorem sortByTimestampDesc_perm (l : List ChatMessage) :
    List.Perm (sortByTimestampDesc l) l := by
  induction l with
  | nil => exact List.Perm.refl _
  | cons x xs ih => exact (insertDesc_perm x _).trans (ih.cons x)

theorem insertDesc_sorted (m : ChatMessage) (l : List ChatMessage)
    (h : l.Pairwise (fun a b => b.timestamp ≤ a.timestamp)) :
    (insertDesc m l).Pairwise (fun a b => b.timestamp ≤ a.timestamp) := by
  induction l with
  | nil => simp [insertDesc]
  | cons x xs ih =>
      rcases List.pairwise_cons.mp h with ⟨hx, hxs⟩
      unfold insertDesc
      by_cases hc : m.timestamp ≤ x.timestamp
      · simp only [hc, if_true]
        refine List.pairwise_cons.mpr ⟨?_, ih hxs⟩
        intro b hb
        rcases List.mem_cons.mp ((insertDesc_perm m xs).mem_iff.mp hb)
          with hb' | hb'
        · exact hb' ▸ hc
        · exact hx b hb'
      · simp only [hc, if_false]
        refine List.pairwise_cons.mpr ⟨?_, h⟩
        intro b hb
        have hcm : x.timestamp ≤ m.timestamp := le_of_not_le hc
        rcases List.mem_cons.mp hb with hb' | hb'
        · exact hb' ▸ hcm
        · exact le_trans (hx b hb') hcm

theorem sortByTimestampDesc_sorted (l : List ChatMessage) :
    (sortByTimestampDesc l).Pairwise (fun a b => b.timestamp ≤ a.timestamp) := by
  induction l with
  | nil => simp [sortByTimestampDesc]
  | cons x xs ih => exact insertDesc_sorted x _ ih

end ChatMessageService

/-- C2: `getRecentChatMessages(sessionId, n)` returns at most `n` messages,
in ascending timestamp order; every returned message belongs to the session
and to the store; and they are the most recent ones — any stored message of
the session that is not returned has a timestamp at most that of every
returned message. -/
theorem getRecentChatMessages_spec (db : List ChatMessage) (sid : String)
    (n : Nat) :
    (ChatMessageService.getRecentChatMessages db sid n).length ≤ n
    ∧ (ChatMessageService.getRecentChatMessages db sid n).Pairwise
        (fun a b => a.timestamp ≤ b.timestamp)
    ∧ (∀ m ∈ ChatMessageService.getRecentChatMessages db sid n,
        m.sessionId = sid ∧ m ∈ db)
    ∧ (∀ m ∈ db, m.sessionId = sid →
        m ∉ ChatMessageService.getRecentChatMessages db sid n →
        ∀ m' ∈ ChatMessageService.getRecentChatMessages db sid n,
          m.timestamp ≤ m'.timestamp) := by
  have hfilter :
      ∀ m, m ∈ db.filter (fun x => x.sessionId == sid) ↔
        m ∈ db ∧ m.sessionId = sid := by
    intro m
    rw [List.mem_filter]
    simp
  set l := db.filter (fun x => x.sessionId == sid) with hl
  set srt := ChatMessageService.sortByTimestampDesc l with hsrt
  have hperm : List.Perm srt l := ChatMessageService.sortByTimestampDesc_perm l
  have hsorted : srt.Pairwise (fun a b => b.timestamp ≤ a.timestamp) :=
    ChatMessageService.sortByTimestampDesc_sorted l
  have hres : ChatMessageService.getRecentChatMessages db sid n
      = (srt.take n).reverse := rfl
  refine ⟨?_, ?_, ?_, ?_⟩
  · rw [hres, List.length_reverse, List.length_take]
    exact min_le_left _ _
  · rw [hres, List.pairwise_reverse]
    exact List.Pairwise.sublist (List.take_sublist n srt) hsorted
  · intro m hm
    rw [hres, List.mem_reverse] at hm
    have hmem : m ∈ srt := (List.take_sublist n srt).mem hm
    have hml : m ∈ l := hperm.mem_iff.mp hmem
    rcases (hfilter m).mp hml with ⟨hdb, hsid⟩
    exact ⟨hsid, hdb⟩
  · intro m hmdb hmsid hnot m' hm'
    rw [hres, List.mem_reverse] at hnot hm'
    have hml : m ∈ l := (hfilter m).mpr ⟨hmdb, hmsid⟩
    have hmsrt : m ∈ srt := hperm.mem_iff.mpr hml
    have hsplit : srt = srt.take n ++ srt.drop n :=
      (List.take_append_drop n srt).symm
    have hdrop : m ∈ srt.drop n := by
      rcases List.mem_append.mp (hsplit ▸ hmsrt) with h1 | h1
      · exact absurd h1 hnot
      · exact h1
    have := (List.pairwise_append.mp (hsplit ▸ hsorted)).2.2
    exact this m' hm' m hdrop

/-! ## Socket presence and chat relay (socket/socket.handler.ts) -/

/-- One entry of the `userSessions` map:
`socket.id → { userId, userName, sessionId }`, recorded at join time. -/
structure UserSessionInfo where
  userId : String
  userName : String
  sessionId : String
deriving DecidableEq, Repr

/-- The `userSessions` map of `SocketHandler` (socket id keyed). -/
abbrev PresenceMap := List (String × UserSessionInfo)

/-- `userSessions.get(socketId)`. -/
def lookupPresence (m : PresenceMap) (socketId : String) :
    Option UserSessionInfo :=
  (m.find? (fun p => p.1 == socketId)).map (fun p => p.2)

/-- `userSessions.set(socketId, info)` (replaces any previous entry). -/
def setPresence (m : PresenceMap) (socketId : String)
    (info : UserSessionInfo) : PresenceMap :=
  (socketId, info) :: m.filter (fun p => p.1 != socketId)

/-- The `send-chat-message` payload (`SendChatMessageData`): only a session
id and a message body — the client supplies no identity fields. -/
structure SendChatMessageData where
  sessionId : String
  message : String
deriving DecidableEq, Repr

/-- Events the chat path emits: `socket.emit('chat-error', ...)` to the
initiating connection, or `io.to(room).emit('chat-message', ...)`. -/
inductive ChatEvent
  | chatError (toSocket : String) (msg : String)
  | chatBroadcast (room : String) (m : ChatMessage)
deriving DecidableEq, Repr

/-- Result of one `handleSendChatMessage` invocation: the chat-message
store after the call and the emitted events. -/
structure SendOutcome where
  msgDb : List ChatMessage
  events : List ChatEvent
deriving DecidableEq, Repr

/-- JS `String.prototype.trim()`: strip leading and trailing whitespace.
Modelled structurally (dropWhile on the character list) so that concrete
inputs evaluate inside the kernel. -/
def jsTrim (s : String) : String :=
  ⟨((s.data.dropWhile Char.isWhitespace).reverse.dropWhile
      Char.isWhitespace).reverse⟩

/-- The text message `handleSendChatMessage` persists: session id and
trimmed body from the payload, sender identity and display name from the
server-side presence entry, server-assigned timestamp. -/
def savedTextMessage (info : UserSessionInfo) (data : SendChatMessageData)
    (now : Nat) : ChatMessage :=
  { sessionId := data.sessionId, userId := info.userId,
    userName := info.userName, message := jsTrim data.message,
    timestamp := now, type := MsgType.text }

namespace SocketHandler

/-- `SocketHandler.handleSendChatMessage`: look up the presence entry for
the socket; with no entry (or no joined session on the socket) emit
`chat-error` and stop.  An empty-after-trim message is logged and dropped
with no event.  Otherwise persist the trimmed message via
`createChatMessage` (sender fields from the presence entry) and broadcast
it to the session room, sender included. -/
def handleSendChatMessage (presence : PresenceMap)
    (msgDb : List ChatMessage) (now : Nat) (socketId : String)
    (socketSessionId : Option String) (data : SendChatMessageData) :
    SendOutcome :=
  match lookupPresence presence socketId, socketSessionId with
  | some info, some _ =>
      if jsTrim data.message = "" then
        { msgDb := msgDb, events := [] }
      else
        let saved := savedTextMessage info data now
        { msgDb := msgDb ++ [saved],
          events := [ChatEvent.chatBroadcast data.sessionId saved] }
  | _, _ =>
      { msgDb := msgDb,
        events := [ChatEvent.chatError socketId "Not connected to chat session"] }

end SocketHandler

/-- Does the outcome report an error event back to the given socket? -/
def reportsErrorTo (o : SendOutcome) (socketId : String) : Bool :=
  o.events.any (fun e =>
    match e with
    | ChatEvent.chatError t _ => t == socketId
    | _ => false)

/-- The (userId, userName) pairs of the messages an outcome persisted
beyond the prior store. -/
def persistedSenders (prior : List ChatMessage) (o : SendOutcome) :
    List (String × String) :=
  (o.msgDb.drop prior.length).map (fun m => (m.userId, m.userName))

/-- C7 counterexample: a connection with a valid presence entry sends a
whitespace-only message; the handler persists and broadcasts nothing —
state unchanged, as the claim says — but it also emits no error event at
all to the initiating connection, contradicting "fails with EmptyMessage
reported directly to the initiating connection". -/
theorem emptyMessage_counterexample :
    reportsErrorTo
        (SocketHandler.handleSendChatMessage
          [("sock1", ⟨"u1", "Alice", "sA"⟩)] [] 0 "sock1" (some "sA")
          ⟨"sA", "   "⟩) "sock1" = false
    ∧ (SocketHandler.handleSendChatMessage
          [("sock1", ⟨"u1", "Alice", "sA"⟩)] [] 0 "sock1" (some "sA")
          ⟨"sA", "   "⟩).events = []
    ∧ (SocketHandler.handleSendChatMessage
          [("sock1", ⟨"u1", "Alice", "sA"⟩)] [] 0 "sock1" (some "sA")
          ⟨"sA", "   "⟩).msgDb = [] := by
  refine ⟨?_, ?_, ?_⟩ <;> rfl

/-- C7 (amended): a message that is empty after trimming is silently
ignored: the handler persists nothing, broadcasts nothing and emits no
event whatsoever (in particular no error is reported back to the
initiating connection). -/
theorem handleSendChatMessage_empty_ignored (presence : PresenceMap)
    (msgDb : List ChatMessage) (now : Nat) (socketId : String)
    (ssid : String) (data : SendChatMessageData) (info : UserSessionInfo)
    (hp : lookupPresence presence socketId = some info)
    (hm : jsTrim data.message = "") :
    SocketHandler.handleSendChatMessage presence msgDb now socketId
        (some ssid) data
      = { msgDb := msgDb, events := [] } := by
  unfold SocketHandler.handleSendChatMessage
  rw [hp]
  simp [hm]

/-- Witness for C7 (amended) at the concrete whitespace message. -/
theorem handleSendChatMessage_empty_ignored_witness :
    SocketHandler.handleSendChatMessage
        [("sock1", ⟨"u1", "Alice", "sA"⟩)] [] 0 "sock1" (some "sA")
        ⟨"sA", "   "⟩
      = { msgDb := [], events := [] } :=
  handleSendChatMessage_empty_ignored _ _ 0 "sock1" "sA" _
    ⟨"u1", "Alice", "sA"⟩ rfl rfl

/-- C10: the sender identity and display name of every persisted and
broadcast chat message come from the server-side presence entry of the
sending connection, never from the client payload (which carries no
identity fields); a connection without a presence entry gets a
`chat-error` and nothing is persisted or broadcast; and the persisted
sender is identical across any two payloads — the hyperproperty that
client-supplied data cannot influence the attributed sender. -/
theorem chat_sender_from_presence (presence : PresenceMap)
    (msgDb : List ChatMessage) (now : Nat) (socketId : String)
    (ssid : String) :
    (∀ data info, lookupPresence presence socketId = some info →
      jsTrim data.message ≠ "" →
      SocketHandler.handleSendChatMessage presence msgDb now socketId
          (some ssid) data
        = { msgDb := msgDb ++ [savedTextMessage info data now],
            events := [ChatEvent.chatBroadcast data.sessionId
                        (savedTextMessage info data now)] })
    ∧ (∀ sos data, lookupPresence presence socketId = none →
      SocketHandler.handleSendChatMessage presence msgDb now socketId
          sos data
        = { msgDb := msgDb,
            events := [ChatEvent.chatError socketId
                        "Not connected to chat session"] })
    ∧ (∀ d1 d2 info, lookupPresence presence socketId = some info →
      jsTrim d1.message ≠ "" → jsTrim d2.message ≠ "" →
      persistedSenders msgDb
          (SocketHandler.handleSendChatMessage presence msgDb now socketId
            (some ssid) d1)
        = persistedSenders msgDb
          (SocketHandler.handleSendChatMessage presence msgDb now socketId
            (some ssid) d2)) := by
  have hok : ∀ data info, lookupPresence presence socketId = some info →
      jsTrim data.message ≠ "" →
      SocketHandler.handleSendChatMessage presence msgDb now socketId
          (some ssid) data
        = { msgDb := msgDb ++ [savedTextMessage info data now],
            events := [ChatEvent.chatBroadcast data.sessionId
                        (savedTextMessage info data now)] } := by
    intro data info hp hm
    unfold SocketHandler.handleSendChatMessage
    rw [hp]
    simp [hm]
  refine ⟨hok, ?_, ?_⟩
  · intro sos data hp
    unfold SocketHandler.handleSendChatMessage
    rw [hp]
  · intro d1 d2 info hp h1 h2
    rw [hok d1 info hp h1, hok d2 info hp h2]
    unfold persistedSenders
    simp [savedTextMessage]

/-- Witness for C10: concrete presence entry, two different payloads, the
attributed sender is the presence identity in both runs. -/
theorem chat_sender_from_presence_witness :
    persistedSenders []
        (SocketHandler.handleSendChatMessage
          [("sock1", ⟨"u1", "Alice", "sA"⟩)] [] 0 "sock1" (some "sA")
          ⟨"sA", "hello"⟩)
      = persistedSenders []
        (SocketHandler.handleSendChatMessage
          [("sock1", ⟨"u1", "Alice", "sA"⟩)] [] 0 "sock1" (some "sA")
          ⟨"sB", "other text"⟩) :=
  (chat_sender_from_presence [("sock1", ⟨"u1", "Alice", "sA"⟩)] [] 0
    "sock1" "sA").2.2 ⟨"sA", "hello"⟩ ⟨"sB", "other text"⟩
    ⟨"u1", "Alice", "sA"⟩ rfl (by decide) (by decide)

/-! ## Socket join path (socket/socket.handler.ts handleJoinSession) -/

/-- The `join-session` payload (`JoinRoomData`). -/
structure JoinRoomData where
  sessionId : String
  userId : String
  userName : String
  userRole : Role
deriving DecidableEq, Repr

/-- Events the join path emits. -/
inductive JoinEvent
  | sessionError (toSocket : String) (msg : String)
  | participantJoined (room : String) (userId userName : String)
  | chatBroadcast (room : String) (m : ChatMessage)
  | sessionJoined (toSocket : String) (sessionId : String)
      (participants : List String)
deriving DecidableEq, Repr

/-- Result of one `handleJoinSession` invocation. -/
structure JoinOutcome where
  db : List Session
  presence : PresenceMap
  msgDb : List ChatMessage
  events : List JoinEvent
deriving DecidableEq, Repr

namespace SocketHandler

/-- `SocketHandler.handleJoinSession`: `findSessionById` (whose thrown
error is caught and surfaced as a generic `session-error` with message
'Failed to join session', leaving all state unchanged); on success the
socket joins the room, the presence entry is recorded, the participant is
added via `$addToSet` — the session's status is never checked — a system
join message is persisted and broadcast to the room, and the current
participant list is sent to the joining socket. -/
def handleJoinSession (db : List Session) (presence : PresenceMap)
    (msgDb : List ChatMessage) (now : Nat) (socketId : String)
    (data : JoinRoomData) : JoinOutcome :=
  match SessionService.findSessionById db data.sessionId with
  | .error _ =>
      { db := db, presence := presence, msgDb := msgDb,
        events := [JoinEvent.sessionError socketId "Failed to join session"] }
  | .ok _ =>
      let presence' := setPresence presence socketId
        ⟨data.userId, data.userName, data.sessionId⟩
      let db' := SessionService.addParticipant db data.sessionId data.userId
      let sys : ChatMessage :=
        { sessionId := data.sessionId, userId := "system",
          userName := "System",
          message := data.userName ++ " joined the meeting",
          timestamp := now, type := MsgType.system }
      let participants :=
        ((findById db' data.sessionId).map (fun s => s.participants)).getD []
      { db := db', presence := presence', msgDb := msgDb ++ [sys],
        events :=
          [JoinEvent.participantJoined data.sessionId data.userId data.userName,
           JoinEvent.chatBroadcast data.sessionId sys,
           JoinEvent.sessionJoined socketId data.sessionId participants] }

end SocketHandler

/-- C3 counterexample: the socket join path on a session whose status is
`ended` does not fail at all — no error event is emitted and the
participant is added to the ended session's participant set, so the claim
that every join request against an ended session fails with SessionEnded
leaving the participant set unchanged is false. -/
theorem joinSession_ended_counterexample :
    (SocketHandler.handleJoinSession [endedSession] [] [] 0 "sock1"
        ⟨"s1", "u1", "Alice", Role.child⟩).db
      = [{ endedSession with participants := ["u1"] }]
    ∧ ((SocketHandler.handleJoinSession [endedSession] [] [] 0 "sock1"
        ⟨"s1", "u1", "Alice", Role.child⟩).events.all
        (fun e => match e with
          | JoinEvent.sessionError _ _ => false
          | _ => true)) = true
    ∧ ["u1"] ≠ endedSession.participants := by
  refine ⟨rfl, rfl, by decide⟩

/-- C3 (amended): the HTTP join (`SessionService.joinSession`) fails with
409 'Session not found' when no session carries the code and with 400
'Session has ended' when the session's status is `ended`, in both cases
performing no write; the socket join path fails (generic 'Failed to join
session' error, state unchanged) only when the session id does not
resolve, and performs the `$addToSet` participant write without checking
the session's status — in particular it adds the participant to an ended
session. -/
theorem join_paths_spec (users : List User) (db : List Session)
    (presence : PresenceMap) (msgDb : List ChatMessage) (now : Nat)
    (socketId : String) :
    (∀ pid code u, findUserById users pid = some u → code ≠ "" →
      db.find? (fun s => s.session_code == code) = none →
      SessionService.joinSession users db pid code
        = .error ⟨409, "Session not found"⟩)
    ∧ (∀ pid code u s, findUserById users pid = some u →
      SessionService.findSessionByCode db code = .ok s →
      s.status = SessionStatus.ended →
      SessionService.joinSession users db pid code
        = .error ⟨400, "Session has ended"⟩)
    ∧ (∀ data e,
      SessionService.findSessionById db data.sessionId = .error e →
      SocketHandler.handleJoinSession db presence msgDb now socketId data
        = { db := db, presence := presence, msgDb := msgDb,
            events := [JoinEvent.sessionError socketId
                        "Failed to join session"] })
    ∧ (∀ data s,
      SessionService.findSessionById db data.sessionId = .ok s →
      (SocketHandler.handleJoinSession db presence msgDb now socketId
          data).db
        = SessionService.addParticipant db data.sessionId data.userId) := by
  refine ⟨?_, ?_, ?_, ?_⟩
  · intro pid code u hu hc hf
    unfold SessionService.joinSession SessionService.findSessionByCode
    rw [hu]
    simp [hc, hf]
  · intro pid code u s hu hs hst
    unfold SessionService.joinSession
    rw [hu, hs]
    simp [hst]
  · intro data e he
    unfold SocketHandler.handleJoinSession
    rw [he]
  · intro data s hs
    unfold SocketHandler.handleJoinSession
    rw [hs]

/-- Witness for C3 (amended): concrete ended session joined over HTTP
fails with 'Session has ended'. -/
theorem join_paths_spec_witness :
    SessionService.joinSession [⟨"u1", Role.child⟩] [endedSession] "u1"
        "ABCD1234"
      = .error ⟨400, "Session has ended"⟩ :=
  (join_paths_spec [⟨"u1", Role.child⟩] [endedSession] [] [] 0
      "sock1").2.1 "u1" "ABCD1234" ⟨"u1", Role.child⟩ endedSession
    rfl rfl rfl

/-! ## Recording endpoints (controllers/livekit.controller.ts,
services/livekit.service.ts) -/

/-- `req.user` as populated by the auth middleware. -/
structure ReqUser where
  userId : String
  role : Role
deriving DecidableEq, Repr

/-- Outcome of the start-recording endpoint: an early 403 JSON error
(carrying no job identifier), or a 200 whose data is the
`{ egressId, filename }` pair from `LiveKitService`. -/
inductive RecordingResponse
  | forbidden (status : Nat) (message : String)
  | started (egressId : String) (filename : String)
deriving DecidableEq, Repr

namespace LiveKitService

/-- `LiveKitService.startRecording`: choose the output file name (the
client-supplied one, or `session-<room>-<Date.now()>.mp4`), start a
room-composite egress on the external media service, and return the
service-issued egress id with the file name.  `now` models `Date.now()`
and `serviceEgressId` the external service's reply. -/
def startRecording (roomName : String) (outputFilename : Option String)
    (now : Nat) (serviceEgressId : String) : String × String :=
  let filename := outputFilename.getD
    ("session-" ++ roomName ++ "-" ++ toString now ++ ".mp4")
  (serviceEgressId, filename)

end LiveKitService

namespace LiveKitController

/-- `LiveKitController.startRecording`: reject with 403 when the caller's
role is not `educator` — the targeted session and its host are never
looked up — otherwise call `LiveKitService.startRecording` on the session
id and return its `{ egressId, filename }`. -/
def startRecording (user : ReqUser) (sessionId : String)
    (filename : Option String) (now : Nat)
    (serviceEgressId : String) : RecordingResponse :=
  if user.role ≠ Role.educator then
    .forbidden 403 "Only educators can start recordings"
  else
    let r := LiveKitService.startRecording sessionId filename now
      serviceEgressId
    .started r.1 r.2

end LiveKitController

/-- A session hosted by educator `"e1"`, used by the C4 counterexample. -/
def hostedSession : Session :=
  { id := "s2", educator_id := "e1", session_code := "HOSTCODE",
    participants := [], status := SessionStatus.active }

/-- C4 counterexample: a caller with role `educator` who is NOT the host
of the targeted session (caller id `"e2"`, host `"e1"`) is not rejected:
the request succeeds and the external job identifier is returned, so the
claim that every non-host start-recording request fails with
NotAuthorized and returns no job identifier is false. -/
theorem startRecording_nonhost_counterexample :
    LiveKitController.startRecording ⟨"e2", Role.educator⟩ hostedSession.id
        (some "rec.mp4") 0 "EG_1"
      = RecordingResponse.started "EG_1" "rec.mp4"
    ∧ "e2" ≠ hostedSession.educator_id := by
  refine ⟨rfl, by decide⟩

/-- C4 (amended): the start-recording endpoint checks only the caller's
role: a caller whose role is not `educator` is rejected with 403 'Only
educators can start recordings' and no job identifier; any educator —
host of the session or not — proceeds and receives the service-issued
egress id and file name. -/
theorem startRecording_role_check_only (user : ReqUser)
    (sessionId : String) (filename : Option String) (now : Nat)
    (egid : String) :
    (user.role ≠ Role.educator →
      LiveKitController.startRecording user sessionId filename now
          egid
        = .forbidden 403 "Only educators can start recordings")
    ∧ (user.role = Role.educator →
      LiveKitController.startRecording user sessionId filename now
          egid
        = .started egid (filename.getD
            ("session-" ++ sessionId ++ "-" ++ toString now ++ ".mp4"))) := by
  constructor
  · intro h
    unfold LiveKitController.startRecording
    simp [h]
  · intro h
    unfold LiveKitController.startRecording LiveKitService.startRecording
    simp [h]

/-- Witness for C4 (amended): a child caller is rejected with 403; an
educator caller receives the egress id. -/
theorem startRecording_role_check_only_witness :
    LiveKitController.startRecording ⟨"u9", Role.child⟩ "s2" none
        0 "EG_1"
      = .forbidden 403 "Only educators can start recordings" :=
  (startRecording_role_check_only ⟨"u9", Role.child⟩ "s2" none
      0 "EG_1").1 (by decide)

/-! ## WebRTC signaling relay (socket/socket.handler.ts handleWebRTCOffer) -/

/-- A live socket.io connection: its socket id, the authenticated user id
set at handshake, and the rooms it has joined.  socket.io automatically
places every socket in a room named by its own socket id; `join-session`
additionally joins the room named by the session id. -/
structure SocketState where
  sid : String
  userId : String
  rooms : List String
deriving DecidableEq, Repr

/-- The `webrtc-offer` payload (`WebRTCOffer`); `fromId` models the
interface's `from` field and `toId` its `to` field. -/
structure WebRTCOfferData where
  offer : String
  fromId : String
  toId : String
deriving DecidableEq, Repr

/-- `socket.to(room)`: every connected socket in `room` other than the
sender. -/
def roomTargets (sockets : List SocketState) (senderSid room : String) :
    List SocketState :=
  sockets.filter
    (fun s => decide (room ∈ s.rooms) && decide (s.sid ≠ senderSid))

namespace SocketHandler

/-- `SocketHandler.handleWebRTCOffer`:
`socket.to(data.toId).emit('webrtc-offer', { offer, from: socket.userId, to })`
— the payload is re-emitted into the room named by `data.toId`, with the
`from` field replaced by the sender's authenticated user id; presence
entries and session membership are not consulted.  Returns the
(socket id, delivered payload) pairs. -/
def handleWebRTCOffer (sockets : List SocketState) (sender : SocketState)
    (data : WebRTCOfferData) : List (String × WebRTCOfferData) :=
  (roomTargets sockets sender.sid data.toId).map
    (fun s => (s.sid, { offer := data.offer, fromId := sender.userId,
                        toId := data.toId }))

end SocketHandler

/-- Specification model, following the spec's words for the signaling
relay: deliver the payload unchanged to every live connection whose
presence entry matches the target identity within the sender's session;
otherwise drop it. -/
def specSignalingRelay (sockets : List SocketState)
    (presence : PresenceMap) (senderSession : String)
    (data : WebRTCOfferData) : List (String × WebRTCOfferData) :=
  (sockets.filter
    (fun s =>
      match lookupPresence presence s.sid with
      | some info =>
          info.userId == data.toId && info.sessionId == senderSession
      | none => false)).map (fun s => (s.sid, data))

/-- C8 counterexample: sockets `sock1` (user `u1`) and `sock2` (user `u2`)
are both present in session `A` (rooms: own socket id and `"A"`).  A
payload from `sock1` addressed to target identity `"u2"` should, per the
claim, reach `sock2` unchanged; the code emits into the room named
`"u2"`, which no socket has joined, so it delivers to nobody.  Moreover,
addressing the socket id `"sock2"` directly shows the payload is not
delivered unchanged: the `from` field is replaced by the sender's
authenticated user id. -/
theorem webrtc_relay_counterexample :
    SocketHandler.handleWebRTCOffer
        [⟨"sock1", "u1", ["sock1", "A"]⟩, ⟨"sock2", "u2", ["sock2", "A"]⟩]
        ⟨"sock1", "u1", ["sock1", "A"]⟩ ⟨"sdp-offer", "u1", "u2"⟩
      = []
    ∧ specSignalingRelay
        [⟨"sock1", "u1", ["sock1", "A"]⟩, ⟨"sock2", "u2", ["sock2", "A"]⟩]
        [("sock1", ⟨"u1", "Alice", "A"⟩), ("sock2", ⟨"u2", "Bob", "A"⟩)]
        "A" ⟨"sdp-offer", "u1", "u2"⟩
      = [("sock2", ⟨"sdp-offer", "u1", "u2"⟩)]
    ∧ ([] : List (String × WebRTCOfferData))
        ≠ [("sock2", ⟨"sdp-offer", "u1", "u2"⟩)]
    ∧ SocketHandler.handleWebRTCOffer
        [⟨"sock1", "u1", ["sock1", "A"]⟩, ⟨"sock2", "u2", ["sock2", "A"]⟩]
        ⟨"sock1", "u1", ["sock1", "A"]⟩ ⟨"sdp-offer", "spoofed", "sock2"⟩
      = [("sock2", ⟨"sdp-offer", "u1", "sock2"⟩)]
    ∧ (⟨"sdp-offer", "u1", "sock2"⟩ : WebRTCOfferData)
        ≠ ⟨"sdp-offer", "spoofed", "sock2"⟩ := by
  refine ⟨rfl, rfl, by decide, rfl, by decide⟩

/-- C8 (amended): the relay delivers to exactly the live connections
(other than the sender) that have joined the room named by the payload's
`to` value — in this codebase the target's socket id, or the whole
session room if `to` names a session — with the `offer` and `to` fields
unchanged and the `from` field replaced by the sender's authenticated
user id; presence entries and the sender's session are not consulted, and
when no such connection exists the delivery list is empty with no
notification to the sender. -/
theorem handleWebRTCOffer_delivery (sockets : List SocketState)
    (sender : SocketState) (data : WebRTCOfferData)
    (p : String × WebRTCOfferData) :
    p ∈ SocketHandler.handleWebRTCOffer sockets sender data ↔
      ∃ s, s ∈ sockets ∧ data.toId ∈ s.rooms ∧ s.sid ≠ sender.sid ∧
        p = (s.sid, { offer := data.offer, fromId := sender.userId,
                      toId := data.toId }) := by
  unfold SocketHandler.handleWebRTCOffer roomTargets
  simp only [List.mem_map, List.mem_filter, Bool.and_eq_true,
    decide_eq_true_eq]
  constructor
  · rintro ⟨s, ⟨hs, h1, h2⟩, rfl⟩
    exact ⟨s, hs, h1, h2, rfl⟩
  · rintro ⟨s, hs, h1, h2, rfl⟩
    exact ⟨s, ⟨hs, h1, h2⟩, rfl⟩

/-! ## Concurrency of chat persistence and broadcast

`handleSendChatMessage` runs `await createChatMessage(...)` and then
broadcasts; per the scheduling model every call that touches durable
storage is a suspension point at which handlers of other connections may
interleave.  A handler is therefore two atomic steps — persist (the store
assigns the server timestamp) and broadcast — with no lock or queue
between or around them. -/

/-- A validated send request held by one connection's handler (presence
entry already resolved, body already trimmed and non-empty). -/
structure PendingSend where
  sessionId : String
  userId : String
  userName : String
  message : String
deriving DecidableEq, Repr

/-- Shared state: the persisted chat store, the order in which broadcasts
went out, and the server clock assigning timestamps. -/
structure RelayState where
  msgDb : List ChatMessage
  broadcastLog : List ChatMessage
  clock : Nat
deriving DecidableEq, Repr

/-- Phase of one in-flight `handleSendChatMessage` invocation: before the
persistence call, suspended between persistence and broadcast, or done. -/
inductive HandlerState
  | ready (req : PendingSend)
  | persisted (saved : ChatMessage)
  | sent
deriving DecidableEq, Repr

/-- The message `createChatMessage` persists for a request at server
time `ts`. -/
def persistedMessage (req : PendingSend) (ts : Nat) : ChatMessage :=
  { sessionId := req.sessionId, userId := req.userId,
    userName := req.userName, message := req.message,
    timestamp := ts, type := MsgType.text }

/-- One atomic step of a handler, exactly as the handler body is written:
first persist the message with the server-assigned timestamp
(`createChatMessage`), then broadcast the saved message to the session
room. -/
def stepHandler (st : RelayState) : HandlerState → RelayState × HandlerState
  | .ready req =>
      ({ st with
         msgDb := st.msgDb ++ [persistedMessage req st.clock],
         clock := st.clock + 1 },
       .persisted (persistedMessage req st.clock))
  | .persisted saved =>
      ({ st with broadcastLog := st.broadcastLog ++ [saved] }, .sent)
  | .sent => (st, .sent)

/-- Interleaved execution of two concurrent send handlers `a` and `b`
under a schedule: `true` steps handler `a`, `false` steps handler `b`. -/
def run : List Bool → RelayState → HandlerState → HandlerState →
    RelayState × HandlerState × HandlerState
  | [], st, a, b => (st, a, b)
  | c :: rest, st, a, b =>
      if c then
        let p := stepHandler st a
        run rest p.1 p.2 b
      else
        let p := stepHandler st b
        run rest p.1 a p.2

/-- Invariant preserved by every step: the persisted store is strictly
timestamp-ascending with all timestamps below the clock, every broadcast
message was persisted, and a handler suspended after its persistence step
holds a message that is in the store. -/
def RelayInv (st : RelayState) (a b : HandlerState) : Prop :=
  st.msgDb.Pairwise (fun m m' => m.timestamp < m'.timestamp)
  ∧ (∀ m ∈ st.msgDb, m.timestamp < st.clock)
  ∧ (∀ m ∈ st.broadcastLog, m ∈ st.msgDb)
  ∧ (∀ s, a = HandlerState.persisted s → s ∈ st.msgDb)
  ∧ (∀ s, b = HandlerState.persisted s → s ∈ st.msgDb)

theorem stepHandler_inv_left (st : RelayState) (a b : HandlerState)
    (hinv : RelayInv st a b) :
    RelayInv (stepHandler st a).1 (stepHandler st a).2 b := by
  obtain ⟨h1, h2, h3, h4, h5⟩ := hinv
  cases a with
  | ready req =>
      simp only [stepHandler]
      refine ⟨?_, ?_, ?_, ?_, ?_⟩
      · refine List.pairwise_append.mpr ⟨h1, by simp, ?_⟩
        intro m hm x hx
        rcases List.mem_singleton.mp hx with rfl
        exact h2 m hm
      · intro m hm
        rcases List.mem_append.mp hm with h | h
        · exact Nat.lt_succ_of_lt (h2 m h)
        · rcases List.mem_singleton.mp h with rfl
          exact Nat.lt_succ_self _
      · intro m hm
        exact List.mem_append_left _ (h3 m hm)
      · intro s hs
        rw [HandlerState.persisted.injEq] at hs
        rw [← hs]
        exact List.mem_append_right _ (List.mem_singleton.mpr rfl)
      · intro s hs
        exact List.mem_append_left _ (h5 s hs)
  | persisted saved =>
      simp only [stepHandler]
      refine ⟨h1, h2, ?_, ?_, h5⟩
      · intro m hm
        rcases List.mem_append.mp hm with h | h
        · exact h3 m h
        · rcases List.mem_singleton.mp h with rfl
          exact h4 _ rfl
      · intro s hs
        exact absurd hs (by simp)
  | sent =>
      simp only [stepHandler]
      refine ⟨h1, h2, h3, ?_, h5⟩
      intro s hs
      exact absurd hs (by simp)

theorem stepHandler_inv_right (st : RelayState) (a b : HandlerState)
    (hinv : RelayInv st a b) :
    RelayInv (stepHandler st b).1 a (stepHandler st b).2 := by
  obtain ⟨h1, h2, h3, h4, h5⟩ := hinv
  have h := stepHandler_inv_left st b a ⟨h1, h2, h3, h5, h4⟩
  exact ⟨h.1, h.2.1, h.2.2.1, h.2.2.2.2, h.2.2.2.1⟩

theorem run_inv (sched : List Bool) (st : RelayState)
    (a b : HandlerState) (hinv : RelayInv st a b) :
    RelayInv (run sched st a b).1 (run sched st a b).2.1
      (run sched st a b).2.2 := by
  induction sched generalizing st a b with
  | nil => exact hinv
  | cons c rest ih =>
      cases c with
      | true =>
          show RelayInv (run rest (stepHandler st a).1 (stepHandler st a).2
              b).1 _ _
          exact ih _ _ _ (stepHandler_inv_left st a b hinv)
      | false =>
          show RelayInv (run rest (stepHandler st b).1 a
              (stepHandler st b).2).1 _ _
          exact ih _ _ _ (stepHandler_inv_right st a b hinv)

/-- C9 counterexample: two concurrent sends to the same session, schedule
"A persists, B persists, B broadcasts, A broadcasts" — a legal
interleaving because the persistence call is a suspension point.  The
broadcast log carries timestamps `[1, 0]`: the two messages of the
session are broadcast out of persisted-timestamp order, so the claimed
serialization does not hold. -/
theorem chat_broadcast_order_counterexample :
    ((run [true, false, false, true] ⟨[], [], 0⟩
        (HandlerState.ready ⟨"sA", "u1", "Alice", "hi"⟩)
        (HandlerState.ready ⟨"sA", "u2", "Bob", "yo"⟩)).1.broadcastLog.map
          (fun m => m.timestamp)) = [1, 0]
    ∧ ((run [true, false, false, true] ⟨[], [], 0⟩
        (HandlerState.ready ⟨"sA", "u1", "Alice", "hi"⟩)
        (HandlerState.ready ⟨"sA", "u2", "Bob", "yo"⟩)).1.broadcastLog.map
          (fun m => m.sessionId)) = ["sA", "sA"]
    ∧ ¬ ((run [true, false, false, true] ⟨[], [], 0⟩
        (HandlerState.ready ⟨"sA", "u1", "Alice", "hi"⟩)
        (HandlerState.ready ⟨"sA", "u2", "Bob", "yo"⟩)).1.broadcastLog.Pairwise
          (fun m m' => m.timestamp ≤ m'.timestamp)) := by
  refine ⟨rfl, rfl, ?_⟩
  intro h
  have h2 : (((run [true, false, false, true] ⟨[], [], 0⟩
      (HandlerState.ready ⟨"sA", "u1", "Alice", "hi"⟩)
      (HandlerState.ready ⟨"sA", "u2", "Bob", "yo"⟩)).1.broadcastLog).map
        (fun m => m.timestamp)).Pairwise (fun x y => x ≤ y) :=
    List.pairwise_map.mpr h
  have h3 : ([1, 0] : List Nat).Pairwise (fun x y => x ≤ y) := h2
  exact absurd ((List.pairwise_cons.mp h3).1 0 (by simp)) (by decide)

/-- C9 (amended): each handler persists before broadcasting, so under
every interleaving the persisted store is strictly timestamp-ascending
and every broadcast message was already persisted; but
persistence-then-broadcast is not serialized across handlers, so the
broadcast order of two concurrent sends to the same session need not
follow persisted-timestamp order (see the counterexample schedule). -/
theorem chat_relay_schedule_spec (sched : List Bool)
    (reqA reqB : PendingSend) :
    ((run sched ⟨[], [], 0⟩ (HandlerState.ready reqA)
        (HandlerState.ready reqB)).1.msgDb.Pairwise
          (fun m m' => m.timestamp < m'.timestamp))
    ∧ (∀ m ∈ (run sched ⟨[], [], 0⟩ (HandlerState.ready reqA)
        (HandlerState.ready reqB)).1.broadcastLog,
        m ∈ (run sched ⟨[], [], 0⟩ (HandlerState.ready reqA)
          (HandlerState.ready reqB)).1.msgDb) := by
  have h := run_inv sched ⟨[], [], 0⟩ (HandlerState.ready reqA)
    (HandlerState.ready reqB)
    ⟨by simp, by simp, by simp,
     by intro s hs; exact absurd hs (by simp),
     by intro s hs; exact absurd hs (by simp)⟩
  exact ⟨h.1, h.2.2.1⟩
